import Mathlib

/-!
Verification development for the KMRL document-processing pipeline.

Shallow embedding of the pipeline's core logic:
* `FileTypeDetector.is_supported_type` (utils/file_detector.py),
* `DepartmentClassifier.classify` (classifiers/department_classifier.py),
* the extractor strategies and factory (extractors/extractors.py),
* `DocumentDispatcher.process_file` / `process_batch` / `update_stats`
  (dispatcher.py).

External engines (libmagic, pdfplumber, pytesseract, pdf2image, python-docx,
ezdxf, pandas, the `re` regex engine, SQLAlchemy persistence) are modelled as
oracles: functions or `Except String`-valued fields supplied by a "world"
record, where `.error msg` models the engine call raising an exception with
message `msg`.  Python `float` arithmetic is modelled with `ℚ` (the classifier
only ever adds and compares the fixed constants 0.5, 0.8, 0.3, 1.0, 0.2 and
multiplies/divides by small integers).
-/

set_option autoImplicit false

namespace KMRL

/-! ## String utilities (Python semantics)

Strings are built through their character lists (`String.mk`/`toList`)
rather than `String.append`/`String.map`/`String.trim`, which are
extensionally identical but do not reduce inside the kernel; this keeps
every definition evaluable on concrete inputs. -/

/-- String concatenation (Python `+` on `str`). -/
def strCat (a b : String) : String :=
  String.mk (a.toList ++ b.toList)

/-- Python's `sep.join(parts)` / `String.intercalate`. -/
def joinSep (sep : String) : List String → String
  | [] => ""
  | [x] => x
  | x :: y :: t => strCat x (strCat sep (joinSep sep (y :: t)))

/-- The decimal digit character for `n < 10`. -/
def digitChar (n : Nat) : Char :=
  Char.ofNat (48 + n)

/-- Decimal digits of `n`, most significant first (`fuel`-bounded structural
recursion; `n + 1` fuel always suffices). -/
def natDigits : Nat → Nat → List Char
  | 0, _ => []
  | fuel + 1, n =>
    if n < 10 then [digitChar n]
    else natDigits fuel (n / 10) ++ [digitChar (n % 10)]

/-- Python's `str(n)` for a natural number. -/
def natToStr (n : Nat) : String :=
  String.mk (natDigits (n + 1) n)

/-- Python's `str.lower`, restricted to ASCII case folding. -/
def lowerStr (s : String) : String :=
  String.mk (s.toList.map Char.toLower)

/-- Python's `str.strip()`: remove leading and trailing whitespace. -/
def pyStrip (s : String) : String :=
  String.mk
    (((s.toList.dropWhile Char.isWhitespace).reverse.dropWhile
        Char.isWhitespace).reverse)

/-- Left-to-right scan counting non-overlapping occurrences of a non-empty
`needle`.  The `fuel` argument (structural recursion measure) is an upper
bound on the number of scan steps; every step consumes at least one
character of `hay`, so `hay.length` fuel is always enough. -/
def countSubFuel (needle : List Char) : Nat → List Char → Nat
  | 0, _ => 0
  | _ + 1, [] => 0
  | fuel + 1, c :: t =>
    if needle.isPrefixOf (c :: t) then
      1 + countSubFuel needle fuel ((c :: t).drop needle.length)
    else
      countSubFuel needle fuel t

/-- Python's `str.count`: the number of non-overlapping occurrences of
`needle` in `hay`, scanning left to right.  `''.count` conventions follow
Python (`hay.count('') = len(hay) + 1`); all needles used below are
non-empty. -/
def countSub (needle hay : List Char) : Nat :=
  match needle with
  | [] => hay.length + 1
  | _ :: _ => countSubFuel needle hay.length hay

/-- `hay.count(needle)` on strings. -/
def pyCount (hay needle : String) : Nat :=
  countSub needle.toList hay.toList

/-- Python's `needle in hay` substring test. -/
def strContains (hay needle : String) : Bool :=
  pyCount hay needle != 0

/-- Python's `str.endswith`. -/
def pyEndsWith (s suffix : String) : Bool :=
  suffix.toList.isSuffixOf s.toList

/-- `os.path.basename` for POSIX-style paths. -/
def basename (p : String) : String :=
  (p.splitOn "/").getLastD ""

/-! ## FileTypeDetector (utils/file_detector.py)

`detect_file_type` consults libmagic (an external engine); the dispatcher
model below takes its `(file_type, mime_type)` answer from the world oracle.
`is_supported_type` is pure and embedded directly. -/

/-- The fixed allow-list from `FileTypeDetector.is_supported_type`. -/
def supported_types : List String :=
  ["PDF", "DOCX", "DOC", "IMAGE", "DWG", "DXF", "TXT", "CSV", "XLSX"]

/-- `FileTypeDetector.is_supported_type`. -/
def is_supported_type (file_type : String) : Bool :=
  file_type ∈ supported_types

/-! ## DepartmentClassifier (classifiers/department_classifier.py) -/

/-- One evidence entry of the classifier's `reasoning` list.  The source
stores formatted strings; the embedding keeps the structured content
(department, matched terms and counts) and treats the exact display
formatting as presentation. -/
inductive Reason where
  | noText
  | noSignal
  | kws (dept : String) (matched : List (String × Nat))
  | pats (dept : String) (matched : List (String × Nat))
  | hint (dept : String) (h : String)
  | cadBonus (fileType : String)
  deriving Repr, DecidableEq

/-- The classifier's return value. -/
structure Verdict where
  department : String
  confidence : ℚ
  scores : List (String × ℚ)
  reasoning : List Reason
  deriving Repr, DecidableEq

/-- `self.department_keywords`, in dict insertion order. -/
def department_keywords : List (String × List String) :=
  [("ENGINEERING",
    ["engineering", "technical", "design", "construction", "maintenance",
     "infrastructure", "track", "signal", "electrical", "mechanical",
     "civil", "structural", "rolling stock", "train", "locomotive",
     "bridge", "tunnel", "station", "platform", "overhead", "catenary",
     "dwg", "drawing", "blueprint", "specification", "cad"]),
   ("PROCUREMENT",
    ["procurement", "purchase", "vendor", "supplier", "contract",
     "quotation", "tender", "bid", "invoice", "payment", "order",
     "material", "equipment", "spare parts", "delivery", "supply",
     "cost", "price", "budget", "negotiation", "agreement"]),
   ("HR",
    ["human resource", "hr", "employee", "staff", "personnel",
     "recruitment", "hiring", "training", "policy", "leave",
     "attendance", "payroll", "benefits", "performance",
     "disciplinary", "grievance", "promotion", "transfer",
     "resignation", "termination", "appraisal"]),
   ("FINANCE",
    ["finance", "financial", "accounting", "budget", "expenditure",
     "revenue", "audit", "tax", "billing", "cost", "profit",
     "loss", "balance", "ledger", "transaction", "banking",
     "investment", "loan", "insurance", "claim"]),
   ("SAFETY",
    ["safety", "security", "accident", "incident", "hazard",
     "risk", "emergency", "fire", "evacuation", "first aid",
     "injury", "fatality", "ppe", "personal protective equipment",
     "safety training", "safety drill", "safety audit",
     "safety committee", "safety policy", "safety manual"]),
   ("OPERATIONS",
    ["operations", "operational", "schedule", "timetable",
     "service", "passenger", "ridership", "frequency",
     "delay", "disruption", "performance", "punctuality",
     "control room", "dispatch", "coordination", "monitoring"]),
   ("LEGAL",
    ["legal", "law", "regulation", "compliance", "court",
     "litigation", "agreement", "contract", "clause",
     "terms", "conditions", "liability", "dispute",
     "arbitration", "mediation", "settlement"]),
   ("REGULATORY",
    ["regulatory", "regulation", "compliance", "commissioner",
     "ministry", "government", "authority", "approval",
     "license", "permit", "clearance", "inspection",
     "audit", "report", "submission", "deadline"])]

/-- `self.department_patterns`, in dict insertion order.  The regular
expressions themselves are interpreted by the `re` engine, modelled as the
`rex` oracle below. -/
def department_patterns : List (String × List String) :=
  [("ENGINEERING",
    ["\\b(dwg|dxf)\\b", "drawing\\s+no", "technical\\s+specification",
     "design\\s+document"]),
   ("PROCUREMENT",
    ["po\\s+no", "purchase\\s+order", "vendor\\s+code", "invoice\\s+no"]),
   ("FINANCE",
    ["₹|\\$|usd|inr", "\\b\\d+\\.\\d+\\s*(crore|lakh|million)",
     "account\\s+no", "transaction\\s+id"]),
   ("SAFETY",
    ["accident\\s+report", "incident\\s+no", "safety\\s+violation"])]

/-- `filename_hints` from `classify`, in dict insertion order. -/
def filename_hints : List (String × List String) :=
  [("ENGINEERING", ["dwg", "dxf", "design", "tech", "drawing"]),
   ("PROCUREMENT", ["po", "purchase", "vendor", "invoice"]),
   ("HR", ["hr", "employee", "staff", "personnel"]),
   ("FINANCE", ["finance", "budget", "cost", "payment"]),
   ("SAFETY", ["safety", "accident", "incident"]),
   ("OPERATIONS", ["ops", "operation", "schedule", "service"])]

/-- A score map in Python dict insertion order (`defaultdict(float)`):
a new key is appended, an existing key is updated in place. -/
def addScore (m : List (String × ℚ)) (d : String) (v : ℚ) : List (String × ℚ) :=
  match m with
  | [] => [(d, v)]
  | (d', s) :: t => if d' = d then (d', s + v) :: t else (d', s) :: addScore t d v

/-- Accumulated keyword score of one department:
`sum over keywords of text_lower.count(keyword.lower())`. -/
def kwScore (textL : String) (kws : List String) : Nat :=
  (kws.map (fun k => pyCount textL (lowerStr k))).sum

/-- The matched-keyword evidence list for one department. -/
def kwMatched (textL : String) (kws : List String) : List (String × Nat) :=
  kws.filterMap (fun k =>
    let c := pyCount textL (lowerStr k)
    if 0 < c then some (k, c) else none)

/-- Phase 1 of `classify`: keyword-based scoring over all departments. -/
def kwPhase (textL : String) (acc : List (String × ℚ) × List Reason) :
    List (String × ℚ) × List Reason :=
  department_keywords.foldl
    (fun a dk =>
      let sc := kwScore textL dk.2
      if 0 < sc then
        (addScore a.1 dk.1 ((sc : ℚ) * (1/2)),
         a.2 ++ [Reason.kws dk.1 (kwMatched textL dk.2)])
      else a)
    acc

/-- Accumulated pattern score of one department, through the regex oracle
`rex pattern textL = len(re.findall(pattern, textL))`. -/
def patScore (rex : String → String → Nat) (textL : String)
    (pats : List String) : Nat :=
  (pats.map (fun p => rex p textL)).sum

/-- The matched-pattern evidence list for one department. -/
def patMatched (rex : String → String → Nat) (textL : String)
    (pats : List String) : List (String × Nat) :=
  pats.filterMap (fun p =>
    let c := rex p textL
    if 0 < c then some (p, c) else none)

/-- Phase 2 of `classify`: pattern-based scoring. -/
def patPhase (rex : String → String → Nat) (textL : String)
    (acc : List (String × ℚ) × List Reason) :
    List (String × ℚ) × List Reason :=
  department_patterns.foldl
    (fun a dp =>
      let sc := patScore rex textL dp.2
      if 0 < sc then
        (addScore a.1 dp.1 ((sc : ℚ) * (4/5)),
         a.2 ++ [Reason.pats dp.1 (patMatched rex textL dp.2)])
      else a)
    acc

/-- Phase 3 of `classify`: filename-hint scoring (0.3 per present hint). -/
def hintPhase (fnL : String) (acc : List (String × ℚ) × List Reason) :
    List (String × ℚ) × List Reason :=
  filename_hints.foldl
    (fun a dh =>
      dh.2.foldl
        (fun b h =>
          if strContains fnL h then
            (addScore b.1 dh.1 (3/10), b.2 ++ [Reason.hint dh.1 h])
          else b)
        a)
    acc

/-- Phase 4 of `classify`: metadata (file-type) bonuses.  `fileType? = none`
models a falsy `meta_data` argument; `some ft` models a truthy dict whose
`file_type` entry is `ft` (`''` when absent). -/
def bonusPhase (fileType? : Option String) (fnL : String)
    (acc : List (String × ℚ) × List Reason) :
    List (String × ℚ) × List Reason :=
  match fileType? with
  | none => acc
  | some ft =>
    if ft = "DWG" ∨ ft = "DXF" then
      (addScore acc.1 "ENGINEERING" 1, acc.2 ++ [Reason.cadBonus ft])
    else if ft = "IMAGE" ∧
        (strContains fnL "scan" ∨ strContains fnL "photo" ∨
         strContains fnL "img") then
      (addScore acc.1 "OPERATIONS" (1/5), acc.2)
    else acc

/-- The accumulated `dept_scores` map and `reasoning` log of `classify`
(for non-empty text, which is the only case in which the source reaches the
scoring phases). -/
def scoresAndReasons (rex : String → String → Nat) (text filename : String)
    (fileType? : Option String) : List (String × ℚ) × List Reason :=
  let textL := lowerStr text
  let fnL := lowerStr filename
  bonusPhase fileType? fnL (hintPhase fnL (patPhase rex textL (kwPhase textL ([], []))))

/-- The accumulated `dept_scores` map. -/
def scoresOf (rex : String → String → Nat) (text filename : String)
    (fileType? : Option String) : List (String × ℚ) :=
  (scoresAndReasons rex text filename fileType?).1

/-- Python's `max` with a value key on a non-empty association list: scan left
to right keeping the current maximum, replacing it only on a strictly larger
value — so ties are broken in favour of the first-seen entry. -/
def pickMax (a : String × ℚ) (l : List (String × ℚ)) : String × ℚ :=
  l.foldl (fun q p => if q.2 < p.2 then p else q) a

/-- `DepartmentClassifier.classify`. -/
def classify (rex : String → String → Nat) (text filename : String)
    (fileType? : Option String) : Verdict :=
  if text = "" then
    { department := "UNKNOWN", confidence := 0, scores := [],
      reasoning := [Reason.noText] }
  else
    let sr := scoresAndReasons rex text filename fileType?
    match sr.1 with
    | [] =>
      { department := "GENERAL", confidence := 0, scores := [],
        reasoning := [Reason.noSignal] }
    | e :: t =>
      let top := pickMax e t
      { department := top.1,
        confidence := min (top.2 * min ((text.length : ℚ) / 1000) 1 / 10) 1,
        scores := sr.1,
        reasoning := sr.2 }

/-! ## Extractors (extractors/extractors.py)

Each external engine call is an `Except String` value: `.ok` is a normal
return, `.error msg` models the call raising an exception with message
`msg`.  Every extractor translates the source's `try/except` structure; the
extractor functions themselves are total — mirroring the source's policy of
catching every internal failure. -/

/-- One page as seen by `PDFExtractor.extract`.  `extractText` is
`page.extract_text()` (which may return `None`); `ocr` is the
`convert_from_path` + `pytesseract.image_to_string(img, lang='eng+mal')`
fallback for exactly this page; `extractTables` is `page.extract_tables()`
(cells may be `None`). -/
structure PdfPage where
  extractText : Except String (Option String)
  ocr : Except String String
  extractTables : Except String (List (List (List (Option String))))

/-- The pdfplumber engine: `pdfplumber.open` yields the page list or raises. -/
structure PdfEngine where
  openDoc : Except String (List PdfPage)

/-- Result of `PDFExtractor.extract`: `text`, and the `meta_data` fields. -/
structure PdfRes where
  text : String
  pages : Nat
  extraction_method : List String
  tables_found : Nat
  error : Option String
  deriving Repr, DecidableEq

/-- `' | '.join(str(cell) for cell in row if cell)` — `None` and `''` cells
are falsy and dropped. -/
def pdfRowText (row : List (Option String)) : String :=
  joinSep " | " ((row.filterMap id).filter (fun c => c ≠ ""))

/-- The `"TABLE:\n..."` block appended for one detected table. -/
def pdfTableBlock (tbl : List (List (Option String))) : String :=
  strCat "TABLE:\n" (joinSep "\n" (tbl.map pdfRowText))

/-- The page-loop condition `text and len(text.strip()) > 30`: the direct
text-layer result is used iff it is non-`None`, non-empty and its stripped
length strictly exceeds 30 characters. -/
def directOk (t? : Option String) : Bool :=
  match t? with
  | none => false
  | some t => t ≠ "" && 30 < (pyStrip t).length

/-- Loop state of `PDFExtractor.extract`: `all_text`, the
`extraction_method` entries appended so far (mutated in place on `result`),
and the running `tables_count`. -/
structure PdfAcc where
  texts : List String
  methods : List String
  tables : Nat
  deriving Repr, DecidableEq

/-- One iteration of the page loop (page index `i`, zero-based).  A raised
`extract_text` propagates (`.error`) carrying the methods recorded so far;
an OCR failure is caught and logged only; a table-extraction failure is
swallowed by the bare `except`. -/
def pdfStep (i : Nat) (p : PdfPage) (acc : PdfAcc) :
    Except (String × PdfAcc) PdfAcc :=
  match p.extractText with
  | .error m => .error (m, acc)
  | .ok t? =>
    let (texts1, methods1) :=
      if directOk t? then
        (acc.texts ++ [t?.getD ""],
         acc.methods ++ [strCat "page_" (strCat (natToStr (i + 1)) "_direct")])
      else
        match p.ocr with
        | .ok o =>
          (acc.texts ++ [o],
           acc.methods ++ [strCat "page_" (strCat (natToStr (i + 1)) "_ocr")])
        | .error _ => (acc.texts, acc.methods)
    match p.extractTables with
    | .ok ts =>
      if ts ≠ [] then
        .ok { texts := texts1 ++ ts.map pdfTableBlock,
              methods := methods1, tables := acc.tables + ts.length }
      else
        .ok { texts := texts1, methods := methods1, tables := acc.tables }
    | .error _ => .ok { texts := texts1, methods := methods1, tables := acc.tables }

/-- The page loop of `PDFExtractor.extract`. -/
def pdfLoop (ps : List PdfPage) (i : Nat) (acc : PdfAcc) :
    Except (String × PdfAcc) PdfAcc :=
  match ps with
  | [] => .ok acc
  | p :: t =>
    match pdfStep i p acc with
    | .error e => .error e
    | .ok acc' => pdfLoop t (i + 1) acc'

/-- `PDFExtractor.extract`.  On a raise inside the page loop the outer
`except` leaves `result['text'] = ''` and `tables_found = 0` but keeps the
already-appended `extraction_method` entries and the page count. -/
def pdfExtract (e : PdfEngine) : PdfRes :=
  match e.openDoc with
  | .error m =>
    { text := "", pages := 0, extraction_method := [], tables_found := 0,
      error := some m }
  | .ok ps =>
    match pdfLoop ps 0 ⟨[], [], 0⟩ with
    | .error (m, acc) =>
      { text := "", pages := ps.length, extraction_method := acc.methods,
        tables_found := 0, error := some m }
    | .ok acc =>
      { text := joinSep "\n\n" acc.texts, pages := ps.length,
        extraction_method := acc.methods, tables_found := acc.tables,
        error := none }

/-- The PIL + tesseract engine for `ImageExtractor`. -/
structure ImgEngine where
  openImage : Except String (Nat × Nat)
  ocr : Except String String

/-- Result of `ImageExtractor.extract`. -/
structure ImgRes where
  text : String
  image_size : Option (Nat × Nat)
  error : Option String
  deriving Repr, DecidableEq

/-- `ImageExtractor.extract`: the image size is recorded before OCR runs, so
an OCR raise leaves the size set. -/
def imgExtract (e : ImgEngine) : ImgRes :=
  match e.openImage with
  | .error m => { text := "", image_size := none, error := some m }
  | .ok sz =>
    match e.ocr with
    | .error m => { text := "", image_size := some sz, error := some m }
    | .ok t => { text := t, image_size := some sz, error := none }

/-- A loaded python-docx document: paragraph texts and tables of cell
texts. -/
structure DocxDoc where
  paragraphs : List String
  tables : List (List (List String))

/-- The python-docx engine. -/
structure DocxEngine where
  loadDoc : Except String DocxDoc

/-- Result of `DOCXExtractor.extract`. -/
structure DocxRes where
  text : String
  paragraphs : Nat
  tables : Nat
  error : Option String
  deriving Repr, DecidableEq

/-- The `'TABLE:\n' + ...` block for one DOCX table (cells joined with
`' | '`, no falsy-cell filtering here). -/
def docxTableBlock (tbl : List (List String)) : String :=
  strCat "TABLE:\n"
    (joinSep "\n" (tbl.map (fun row => joinSep " | " row)))

/-- `DOCXExtractor.extract`: paragraphs whose stripped text is non-empty, in
order, then the table blocks; joined with blank lines. -/
def docxExtract (e : DocxEngine) : DocxRes :=
  match e.loadDoc with
  | .error m => { text := "", paragraphs := 0, tables := 0, error := some m }
  | .ok d =>
    let paras := d.paragraphs.filter (fun p => pyStrip p ≠ "")
    { text := joinSep "\n\n" (paras ++ d.tables.map docxTableBlock),
      paragraphs := paras.length,
      tables := d.tables.length,
      error := none }

/-- One model-space entity of an ezdxf document: its `dxftype()`, its
`dxf.text` attribute when present (`hasattr`), and its `str(entity)`
rendering. -/
structure DxfEntity where
  etype : String
  text : Option String
  reprText : String
  deriving Repr, DecidableEq

/-- A loaded ezdxf document. -/
structure DxfDoc where
  layers : List String
  entities : List DxfEntity
  deriving Repr, DecidableEq

/-- The ezdxf engine: `ezdxf.readfile` yields the document or raises. -/
structure CadEngine where
  readFile : Except String DxfDoc

/-- Result of `CADExtractor.extract`. -/
structure CadRes where
  text : String
  entities : Nat
  text_entities : Nat
  layers : List String
  error : Option String
  deriving Repr, DecidableEq

/-- The strings contributed by one entity (TEXT/MTEXT always contribute,
DIMENSION only when a `dxf.text` attribute is present). -/
def cadEntityText (en : DxfEntity) : List String :=
  if en.etype = "TEXT" ∨ en.etype = "MTEXT" then
    [en.text.getD en.reprText]
  else if en.etype = "DIMENSION" then
    match en.text with
    | some t => [t]
    | none => []
  else []

/-- Whether one entity increments `text_entities`. -/
def cadEntityCounts (en : DxfEntity) : Bool :=
  if en.etype = "TEXT" ∨ en.etype = "MTEXT" then true
  else if en.etype = "DIMENSION" then en.text.isSome
  else false

/-- `CADExtractor.extract`.  The body runs only when the lower-cased path
ends in `.dxf`; otherwise the `if` is skipped and the initial result (empty
text, zero counts, no error) is returned unchanged.  When `ezdxf.readfile`
raises, the `except` branch records the error and the
`"CAD file detected: ..."` placeholder. -/
def cadExtract (e : CadEngine) (filepath : String) : CadRes :=
  if pyEndsWith (lowerStr filepath) ".dxf" then
    match e.readFile with
    | .error m =>
      { text := strCat "CAD file detected: " (basename filepath),
        entities := 0, text_entities := 0, layers := [], error := some m }
    | .ok d =>
      { text := joinSep "\n" (d.entities.map cadEntityText).flatten,
        entities := d.entities.length,
        text_entities := (d.entities.filter (fun en => cadEntityCounts en)).length,
        layers := d.layers,
        error := none }
  else
    { text := "", entities := 0, text_entities := 0, layers := [], error := none }

/-- One attempt of `pd.read_csv(filepath, encoding=enc)`:
a parsed frame (row count, column names, `head(10).to_string` preview), a
`UnicodeDecodeError` (caught, next encoding tried), or any other raise
(escapes the encoding loop). -/
inductive CsvRead where
  | ok (rows : Nat) (columns : List String) (preview : String)
  | unicodeErr
  | fail (msg : String)

/-- Result of `CSVExtractor.extract`.  `encoding` stays at its `'utf-8'`
initial value when no attempt succeeded. -/
structure CsvRes where
  text : String
  rows : Nat
  columns : Nat
  encoding : String
  error : Option String
  deriving Repr, DecidableEq

/-- The fixed encoding list tried by both CSV and TXT extractors. -/
def encodings : List String := ["utf-8", "latin-1", "cp1252"]

/-- The `for ... else` encoding loop of `CSVExtractor.extract`: first
non-`UnicodeDecodeError` outcome wins; exhausting the list raises the
`ValueError` caught by the outer handler. -/
def csvFirstDecode (f : String → CsvRead) :
    List String → Except String (String × Nat × List String × String)
  | [] => .error "Could not decode CSV with any common encoding"
  | enc :: rest =>
    match f enc with
    | .ok r c p => .ok (enc, r, c, p)
    | .unicodeErr => csvFirstDecode f rest
    | .fail m => .error m

/-- `CSVExtractor.extract`. -/
def csvExtract (f : String → CsvRead) : CsvRes :=
  match csvFirstDecode f encodings with
  | .error m =>
    { text := "", rows := 0, columns := 0, encoding := "utf-8", error := some m }
  | .ok (enc, r, cols, preview) =>
    { text := joinSep "\n\n"
        [strCat "CSV Table with " (strCat (natToStr r)
           (strCat " rows and " (strCat (natToStr cols.length) " columns:"))),
         strCat "Columns: " (joinSep ", " cols),
         "Data preview:",
         preview],
      rows := r, columns := cols.length, encoding := enc, error := none }

/-- One attempt of `open(filepath, encoding=enc).read()`. -/
inductive TxtRead where
  | ok (content : String)
  | unicodeErr
  | fail (msg : String)

/-- Result of `TXTExtractor.extract`. -/
structure TxtRes where
  text : String
  encoding : String
  lines : Nat
  error : Option String
  deriving Repr, DecidableEq

/-- The encoding loop of `TXTExtractor.extract`. -/
def txtFirstDecode (f : String → TxtRead) :
    List String → Except String (String × String)
  | [] => .error "Could not decode text file with any common encoding"
  | enc :: rest =>
    match f enc with
    | .ok content => .ok (enc, content)
    | .unicodeErr => txtFirstDecode f rest
    | .fail m => .error m

/-- `TXTExtractor.extract`: raw content verbatim, line count per
`len(text.split('\n'))`. -/
def txtExtract (f : String → TxtRead) : TxtRes :=
  match txtFirstDecode f encodings with
  | .error m => { text := "", encoding := "utf-8", lines := 0, error := some m }
  | .ok (enc, content) =>
    { text := content, encoding := enc,
      lines := (content.splitOn "\n").length, error := none }

/-- All extraction engines for one file. -/
structure EngWorld where
  pdf : PdfEngine
  img : ImgEngine
  docx : DocxEngine
  cad : CadEngine
  csvRead : String → CsvRead
  txtRead : String → TxtRead

/-- The value returned by whichever extractor the factory selected. -/
inductive ExtOut where
  | pdf (r : PdfRes)
  | image (r : ImgRes)
  | docx (r : DocxRes)
  | cad (r : CadRes)
  | csv (r : CsvRes)
  | txt (r : TxtRes)
  deriving Repr, DecidableEq

/-- `ExtractorFactory.get_extractor(file_type).extract(filepath)`:
the factory's lookup table, with `.error` modelling the `ValueError` raised
for a type tag without an extractor. -/
def runExtractor (file_type : String) (w : EngWorld) (filepath : String) :
    Except String ExtOut :=
  if file_type = "PDF" then .ok (.pdf (pdfExtract w.pdf))
  else if file_type = "IMAGE" then .ok (.image (imgExtract w.img))
  else if file_type = "DOCX" ∨ file_type = "DOC" then .ok (.docx (docxExtract w.docx))
  else if file_type = "DXF" ∨ file_type = "DWG" then .ok (.cad (cadExtract w.cad filepath))
  else if file_type = "CSV" ∨ file_type = "XLSX" then .ok (.csv (csvExtract w.csvRead))
  else if file_type = "TXT" then .ok (.txt (txtExtract w.txtRead))
  else .error (strCat "No extractor available for file type: " file_type)

/-! ## Dispatcher (dispatcher.py)

`process_file` interleaves pure control flow with effectful calls (libmagic
type detection, SQLAlchemy persistence, the extractor, the classifier).  The
effectful steps are oracles in a `World` record, keyed by file path;
`.error msg` models the call raising with message `msg`.  The classifier is
the pure model above.  The per-document step log is kept as structured
entries (the source stores formatted strings); the `error` field keeps the
exact message strings the source builds. -/

/-- The caller-supplied `meta_data` dict, restricted to the keys the core
reads: `channel` (stats/record key) and an optional `file_type` entry, which
— because `{'file_type': file_type, **meta_data}` lets the caller's key win —
overrides the detected tag in the classifier's metadata view. -/
structure CallerMeta where
  channel : Option String
  fileTypeKey : Option String
  deriving Repr, DecidableEq

/-- One entry of `result['processing_steps']`, structured. -/
inductive Step where
  | detected (file_type mime_type : String)
  | createdRecord (id : Nat)
  | extracted (chars : Nat)
  | extractionWarning (msg : String)
  | classified (department : String) (confidence : ℚ)
  | errorStep (msg : String)
  | completed
  deriving Repr, DecidableEq

/-- The `ProcessingResult` dict returned by `process_file`.  `department` is
present only when the success path sets it. -/
structure PResult where
  filepath : String
  status : String
  document_id : Option Nat
  error : Option String
  processing_steps : List Step
  department : Option String
  deriving Repr, DecidableEq

/-- One `update_stats(channel, file_type, department, success)` call. -/
structure StatsUpdate where
  channel : String
  file_type : String
  department : String
  success : Bool
  deriving Repr, DecidableEq

/-- What the dispatcher's extraction step reads off the extractor's return
value: `extraction_result.get('text', '')` and the optional
`meta_data['error']` note. -/
structure ExtOutcome where
  text : String
  errNote : Option String
  deriving Repr, DecidableEq

/-- The effectful environment of one `process_file` call, keyed by file
path.  `detect` is `FileTypeDetector.detect_file_type` (total: it catches
its own failures and falls back to extension-only resolution); `dbCreate`
is the step-2 record creation returning the new id; `extractRes` is
`get_extractor(...).extract(...)` at the dispatcher's boundary; `errCommit`
is the database update inside the extraction-failure handler; `finalCommit`
is the step-5 commit-and-close. -/
structure World where
  rex : String → String → Nat
  detect : String → String × String
  dbCreate : String → Except String Nat
  extractRes : String → Except String ExtOutcome
  errCommit : String → Except String Unit
  finalCommit : String → Except String Unit

/-- The observable outcome of one `process_file` call: the returned result,
the `update_stats` calls made, and which collaborators were invoked. -/
structure POut where
  result : PResult
  stats : List StatsUpdate
  dbCreateCalled : Bool
  extractCalled : Bool
  classifyCalled : Bool
  deriving Repr, DecidableEq

/-- `DocumentDispatcher.process_file`. -/
def process_file (w : World) (filepath : String) (meta : CallerMeta) : POut :=
  let ch := meta.channel.getD "UNKNOWN"
  let (file_type, mime_type) := w.detect filepath
  let steps0 := [Step.detected file_type mime_type]
  if ¬ is_supported_type file_type then
    { result :=
        { filepath := filepath, status := "UNSUPPORTED", document_id := none,
          error := some (strCat "File type " (strCat file_type " is not supported")),
          processing_steps := steps0, department := none },
      stats := [], dbCreateCalled := false, extractCalled := false,
      classifyCalled := false }
  else
    match w.dbCreate filepath with
    | .error e =>
      -- step-2 raise reaches the top-level handler; document_id is still
      -- None so no best-effort record update is attempted
      { result :=
          { filepath := filepath, status := "FAILED", document_id := none,
            error := some (strCat "Processing failed: " e),
            processing_steps := steps0 ++ [Step.errorStep e],
            department := none },
        stats := [⟨ch, file_type, "UNKNOWN", false⟩],
        dbCreateCalled := true, extractCalled := false,
        classifyCalled := false }
    | .ok docId =>
      let steps1 := steps0 ++ [Step.createdRecord docId]
      match w.extractRes filepath with
      | .error e =>
        -- the extraction stage raised: the inner handler sets
        -- EXTRACTION_FAILED and commits the ERROR record; if that commit
        -- itself raises, the top-level handler turns the result into FAILED
        match w.errCommit filepath with
        | .ok _ =>
          { result :=
              { filepath := filepath, status := "EXTRACTION_FAILED",
                document_id := some docId,
                error := some (strCat "Text extraction failed: " e),
                processing_steps := steps1, department := none },
            stats := [], dbCreateCalled := true, extractCalled := true,
            classifyCalled := false }
        | .error e2 =>
          { result :=
              { filepath := filepath, status := "FAILED",
                document_id := some docId,
                error := some (strCat "Processing failed: " e2),
                processing_steps := steps1 ++ [Step.errorStep e2],
                department := none },
            stats := [⟨ch, file_type, "UNKNOWN", false⟩],
            dbCreateCalled := true, extractCalled := true,
            classifyCalled := false }
      | .ok ext =>
        let steps2 := steps1 ++ [Step.extracted ext.text.length] ++
          (match ext.errNote with
           | some n => [Step.extractionWarning n]
           | none => [])
        let effFt := meta.fileTypeKey.getD file_type
        let cls := classify w.rex ext.text (basename filepath) (some effFt)
        let steps3 := steps2 ++ [Step.classified cls.department cls.confidence]
        match w.finalCommit filepath with
        | .error e =>
          -- the step-5 commit raised: top-level handler, best-effort record
          -- update (swallowed), counted as a failure
          { result :=
              { filepath := filepath, status := "FAILED",
                document_id := some docId,
                error := some (strCat "Processing failed: " e),
                processing_steps := steps3 ++ [Step.errorStep e],
                department := none },
            stats := [⟨ch, file_type, "UNKNOWN", false⟩],
            dbCreateCalled := true, extractCalled := true,
            classifyCalled := true }
        | .ok _ =>
          { result :=
              { filepath := filepath, status := "SUCCESS",
                document_id := some docId, error := none,
                processing_steps := steps3 ++ [Step.completed],
                department := some cls.department },
            stats := [⟨ch, file_type, cls.department, true⟩],
            dbCreateCalled := true, extractCalled := true,
            classifyCalled := true }

/-- `self.processing_stats`. -/
structure Stats where
  total_processed : Nat
  successful : Nat
  failed : Nat
  by_channel : List (String × Nat)
  by_type : List (String × Nat)
  by_department : List (String × Nat)
  deriving Repr, DecidableEq

/-- The empty statistics the dispatcher starts with (and resets to). -/
def emptyStats : Stats :=
  { total_processed := 0, successful := 0, failed := 0,
    by_channel := [], by_type := [], by_department := [] }

/-- `if key not in mapping: mapping[key] = 0; mapping[key] += 1` on a dict
in insertion order. -/
def bumpCount (m : List (String × Nat)) (k : String) : List (String × Nat) :=
  match m with
  | [] => [(k, 1)]
  | (k', n) :: t => if k' = k then (k', n + 1) :: t else (k', n) :: bumpCount t k

/-- `DocumentDispatcher.update_stats`.  Note that it never touches
`total_processed`. -/
def update_stats (s : Stats) (u : StatsUpdate) : Stats :=
  { total_processed := s.total_processed,
    successful := if u.success then s.successful + 1 else s.successful,
    failed := if u.success then s.failed else s.failed + 1,
    by_channel := bumpCount s.by_channel u.channel,
    by_type := bumpCount s.by_type u.file_type,
    by_department := bumpCount s.by_department u.department }

/-- One batch item: `{'filepath': ..., 'meta_data': ...}`, the `meta_data`
key optional (`file_info.get('meta_data', {})`). -/
structure BatchItem where
  filepath : String
  meta_data : Option CallerMeta
  deriving Repr, DecidableEq

/-- The `for` loop of `process_batch`: results appended in order, each
document's `update_stats` calls applied as they happen. -/
def batchLoop (w : World) (files : List BatchItem) (s : Stats) :
    List PResult × Stats :=
  match files with
  | [] => ([], s)
  | it :: rest =>
    let o := process_file w it.filepath (it.meta_data.getD ⟨none, none⟩)
    let s1 := o.stats.foldl update_stats s
    let (rs, s2) := batchLoop w rest s1
    (o.result :: rs, s2)

/-- `DocumentDispatcher.process_batch`: the loop, then
`self.processing_stats['total_processed'] += len(files)`. -/
def process_batch (w : World) (files : List BatchItem) (s : Stats) :
    List PResult × Stats :=
  let (rs, s1) := batchLoop w files s
  (rs, { s1 with total_processed := s1.total_processed + files.length })

/-! ## Specification-side functions and concrete inputs -/

/-- Per-page aggregate contribution to `all_text`: the direct text-layer
result when it is non-empty and longer than 30 characters after stripping,
otherwise the OCR result when OCR succeeds, otherwise nothing; followed by
the page's table blocks. -/
def pdfPageBlocks (p : PdfPage) : List String :=
  (match p.extractText with
   | .error _ => []
   | .ok t? =>
     if directOk t? then [t?.getD ""]
     else
       match p.ocr with
       | .ok o => [o]
       | .error _ => []) ++
  (match p.extractTables with
   | .ok ts => ts.map pdfTableBlock
   | .error _ => [])

/-- Per-page `extraction_method` entries (page index `i`, zero-based). -/
def pdfPageMethods (i : Nat) (p : PdfPage) : List String :=
  match p.extractText with
  | .error _ => []
  | .ok t? =>
    if directOk t? then [strCat "page_" (strCat (natToStr (i + 1)) "_direct")]
    else
      match p.ocr with
      | .ok _ => [strCat "page_" (strCat (natToStr (i + 1)) "_ocr")]
      | .error _ => []

/-- Per-page contribution to `tables_found`. -/
def pdfPageTables (p : PdfPage) : Nat :=
  match p.extractTables with
  | .ok ts => ts.length
  | .error _ => 0

/-- All page text/table blocks, in page order. -/
def pdfSpecTexts : List PdfPage → List String
  | [] => []
  | p :: t => pdfPageBlocks p ++ pdfSpecTexts t

/-- All `extraction_method` entries, in page order, pages numbered from
`i + 1`. -/
def pdfSpecMethods (i : Nat) : List PdfPage → List String
  | [] => []
  | p :: t => pdfPageMethods i p ++ pdfSpecMethods (i + 1) t

/-- Total table count over all pages. -/
def pdfSpecTables : List PdfPage → Nat
  | [] => 0
  | p :: t => pdfPageTables p + pdfSpecTables t

/-- The count stored under key `k` of a stats mapping (0 when absent). -/
def lookupCount (m : List (String × Nat)) (k : String) : Nat :=
  match m with
  | [] => 0
  | (k', n) :: t => if k' = k then n else lookupCount t k

/-- All scores accumulated by the classifier are positive. -/
def AllPos (m : List (String × ℚ)) : Prop :=
  ∀ p ∈ m, 0 < p.2

/-- A regex oracle reporting no matches for any pattern, used for concrete
witness inputs. -/
def rexZero : String → String → Nat := fun _ _ => 0

/-- A world in which every effectful step succeeds and extraction yields
empty text: `process_file` runs the full success path. -/
def wSuccess : World :=
  { rex := rexZero,
    detect := fun _ => ("TXT", "text/plain"),
    dbCreate := fun _ => .ok 1,
    extractRes := fun _ => .ok ⟨"", none⟩,
    errCommit := fun _ => .ok (),
    finalCommit := fun _ => .ok () }

/-- A world in which type detection resolves every file to the unsupported
`ZIP` tag (e.g. a zero-byte `.zip` file). -/
def wZip : World :=
  { rex := rexZero,
    detect := fun _ => ("ZIP", "application/zip"),
    dbCreate := fun _ => .error "unused",
    extractRes := fun _ => .error "unused",
    errCommit := fun _ => .ok (),
    finalCommit := fun _ => .ok () }

/-- A 30-character direct text-layer result (no whitespace, so stripping
leaves it unchanged). -/
def text30 : String := "task30task30task30task30task30"

/-- A one-page document whose direct text layer yields exactly 30
characters and whose OCR fallback succeeds. -/
def page30 : PdfPage := ⟨.ok (some text30), .ok "OCRTEXT", .ok []⟩

/-- The engine serving `page30`. -/
def engine30 : PdfEngine := ⟨.ok [page30]⟩

/-- A 40-character direct text-layer result. -/
def text40 : String := "engineering drawing specification 40.OK!"

/-- A one-page document with a long direct text layer and one extracted
table. -/
def page40 : PdfPage :=
  ⟨.ok (some text40), .error "ocr unavailable", .ok [[[some "a", none, some "b"]]]⟩

/-- The engine serving `page40`. -/
def engine40 : PdfEngine := ⟨.ok [page40]⟩

/-- Engines whose every call fails, for exercising the error paths. -/
def failEngines : EngWorld :=
  { pdf := ⟨.error "e"⟩,
    img := ⟨.error "e", .error "e"⟩,
    docx := ⟨.error "e"⟩,
    cad := ⟨.error "e"⟩,
    csvRead := fun _ => .unicodeErr,
    txtRead := fun _ => .unicodeErr }

/-- A page with no direct text layer whose OCR fallback and table
extraction both raise — both failures are caught inside the page loop. -/
def pageOcrFail : PdfPage :=
  ⟨.ok none, .error "tesseract failed", .error "tables failed"⟩

/-- The engine serving `pageOcrFail`. -/
def engineOcrFail : PdfEngine := ⟨.ok [pageOcrFail]⟩

/-- Engines whose PDF document opens but whose single page fails OCR and
table extraction. -/
def enginesOcrFail : EngWorld :=
  { failEngines with pdf := engineOcrFail }

/-! ## Helper lemmas -/

/-- Python `max` returns the first entry attaining the maximal value: the
scanned list splits around the returned entry, every earlier entry is
strictly smaller, and every later entry is at most it. -/
theorem pickMax_split (l : List (String × ℚ)) :
    ∀ a : String × ℚ, ∃ l₁ l₂,
      a :: l = l₁ ++ pickMax a l :: l₂ ∧
      (∀ p ∈ l₁, p.2 < (pickMax a l).2) ∧
      (∀ p ∈ l₂, p.2 ≤ (pickMax a l).2) := by
  induction l with
  | nil =>
    intro a
    exact ⟨[], [], rfl, by simp, by simp⟩
  | cons p t ih =>
    intro a
    have hfold : pickMax a (p :: t) = pickMax (if a.2 < p.2 then p else a) t := rfl
    by_cases h : a.2 < p.2
    · rw [hfold, if_pos h]
      obtain ⟨l₁, l₂, hsplit, h₁, h₂⟩ := ih p
      have hple : p.2 ≤ (pickMax p t).2 := by
        cases l₁ with
        | nil =>
          have := hsplit
          simp only [List.nil_append] at this
          rw [← (List.cons.injEq ..).mp this |>.1]
        | cons x l₁t =>
          have hx : x = p := by
            have := hsplit
            simp only [List.cons_append] at this
            exact ((List.cons.injEq ..).mp this).1.symm
          have hlt := h₁ x (List.mem_cons_self ..)
          rw [hx] at hlt
          exact le_of_lt hlt
      refine ⟨a :: l₁, l₂, ?_, ?_, h₂⟩
      · rw [List.cons_append, ← hsplit]
      · intro q hq
        rcases List.mem_cons.mp hq with hqa | hql
        · exact hqa ▸ lt_of_lt_of_le h hple
        · exact h₁ q hql
    · rw [hfold, if_neg h]
      obtain ⟨l₁, l₂, hsplit, h₁, h₂⟩ := ih a
      have hpa : p.2 ≤ a.2 := le_of_not_lt h
      cases l₁ with
      | nil =>
        simp only [List.nil_append] at hsplit
        have ha : a = pickMax a t := ((List.cons.injEq ..).mp hsplit).1
        have ht : t = l₂ := ((List.cons.injEq ..).mp hsplit).2
        refine ⟨[], p :: t, ?_, by simp, ?_⟩
        · simp [← ha]
        · intro q hq
          rcases List.mem_cons.mp hq with hqp | hqt
          · exact hqp ▸ (ha ▸ hpa)
          · exact h₂ q (ht ▸ hqt)
      | cons x l₁t =>
        simp only [List.cons_append] at hsplit
        have hax : a = x := ((List.cons.injEq ..).mp hsplit).1
        have ht : t = l₁t ++ pickMax a t :: l₂ := ((List.cons.injEq ..).mp hsplit).2
        have hal : a.2 < (pickMax a t).2 := by
          have := h₁ x (List.mem_cons_self ..)
          rw [← hax] at this
          exact this
        refine ⟨a :: p :: l₁t, l₂, ?_, ?_, h₂⟩
        · simp only [List.cons_append]
          rw [← ht]
        · intro q hq
          rcases List.mem_cons.mp hq with hqa | hq2
          · exact hqa ▸ hal
          · rcases List.mem_cons.mp hq2 with hqp | hql
            · exact hqp ▸ lt_of_le_of_lt hpa hal
            · exact h₁ q (hax ▸ List.mem_cons_of_mem x hql)

/-- Every insertion into the score map adds a positive amount, so positivity
of all stored scores is preserved. -/
theorem allPos_addScore :
    ∀ (m : List (String × ℚ)) (d : String) (v : ℚ),
      AllPos m → 0 < v → AllPos (addScore m d v) := by
  intro m d v
  induction m with
  | nil =>
    intro _ hv p hp
    simp only [addScore, List.mem_singleton] at hp
    rw [hp]
    exact hv
  | cons e t ih =>
    intro hm hv p hp
    obtain ⟨d2, s⟩ := e
    have hs : 0 < s := hm (d2, s) (List.mem_cons_self ..)
    have ht : AllPos t := fun q hq => hm q (List.mem_cons_of_mem _ hq)
    simp only [addScore] at hp
    split at hp
    · rcases List.mem_cons.mp hp with h1 | h2
      · rw [h1]
        exact add_pos hs hv
      · exact ht p h2
    · rcases List.mem_cons.mp hp with h1 | h2
      · rw [h1]
        exact hs
      · exact ih ht hv p h2

/-- A fold whose step preserves score positivity preserves it overall. -/
theorem allPos_foldl {β : Type}
    (step : List (String × ℚ) × List Reason → β → List (String × ℚ) × List Reason)
    (hstep : ∀ acc b, AllPos acc.1 → AllPos (step acc b).1) :
    ∀ (l : List β) (acc : List (String × ℚ) × List Reason),
      AllPos acc.1 → AllPos (l.foldl step acc).1 := by
  intro l
  induction l with
  | nil => intro acc h; exact h
  | cons b t ih => intro acc h; exact ih (step acc b) (hstep acc b h)

/-- The keyword phase only ever adds positive score. -/
theorem allPos_kwPhase (textL : String) (acc : List (String × ℚ) × List Reason)
    (h : AllPos acc.1) : AllPos (kwPhase textL acc).1 := by
  refine allPos_foldl _ ?_ department_keywords acc h
  intro a dk ha
  simp only
  split
  · refine allPos_addScore _ _ _ ha ?_
    have hc : (0 : ℚ) < (kwScore textL dk.2 : ℚ) := by
      exact_mod_cast ‹0 < kwScore textL dk.2›
    exact mul_pos hc (by norm_num)
  · exact ha

/-- The pattern phase only ever adds positive score. -/
theorem allPos_patPhase (rex : String → String → Nat) (textL : String)
    (acc : List (String × ℚ) × List Reason)
    (h : AllPos acc.1) : AllPos (patPhase rex textL acc).1 := by
  refine allPos_foldl _ ?_ department_patterns acc h
  intro a dp ha
  simp only
  split
  · refine allPos_addScore _ _ _ ha ?_
    have hc : (0 : ℚ) < (patScore rex textL dp.2 : ℚ) := by
      exact_mod_cast ‹0 < patScore rex textL dp.2›
    exact mul_pos hc (by norm_num)
  · exact ha

/-- The filename-hint phase only ever adds positive score. -/
theorem allPos_hintPhase (fnL : String) (acc : List (String × ℚ) × List Reason)
    (h : AllPos acc.1) : AllPos (hintPhase fnL acc).1 := by
  refine allPos_foldl _ ?_ filename_hints acc h
  intro a dh ha
  refine allPos_foldl _ ?_ dh.2 a ha
  intro b hnt hb
  split
  · exact allPos_addScore _ _ _ hb (by norm_num)
  · exact hb

/-- The metadata-bonus phase only ever adds positive score. -/
theorem allPos_bonusPhase (fileType? : Option String) (fnL : String)
    (acc : List (String × ℚ) × List Reason)
    (h : AllPos acc.1) : AllPos (bonusPhase fileType? fnL acc).1 := by
  cases fileType? with
  | none => exact h
  | some ft =>
    simp only [bonusPhase]
    split
    · exact allPos_addScore _ _ _ h (by norm_num)
    · split
      · exact allPos_addScore _ _ _ h (by norm_num)
      · exact h

/-- Every score the classifier accumulates is positive. -/
theorem scoresOf_allPos (rex : String → String → Nat) (text filename : String)
    (fileType? : Option String) : AllPos (scoresOf rex text filename fileType?) := by
  unfold scoresOf scoresAndReasons
  refine allPos_bonusPhase _ _ _ (allPos_hintPhase _ _ (allPos_patPhase _ _ _
    (allPos_kwPhase _ _ ?_)))
  intro p hp
  simp at hp

/-- The batch loop's result list is the in-order map of `process_file` over
the items. -/
theorem batchLoop_results (w : World) :
    ∀ (files : List BatchItem) (s : Stats),
      (batchLoop w files s).1 = files.map (fun it =>
        (process_file w it.filepath (it.meta_data.getD ⟨none, none⟩)).result) := by
  intro files
  induction files with
  | nil => intro s; rfl
  | cons it rest ih =>
    intro s
    simp only [batchLoop, List.map_cons]
    rw [ih]

/-- Incrementing a stats mapping raises exactly the bumped key's count. -/
theorem lookupCount_bumpCount_self :
    ∀ (m : List (String × Nat)) (k : String),
      lookupCount (bumpCount m k) k = lookupCount m k + 1 := by
  intro m k
  induction m with
  | nil => simp [bumpCount, lookupCount]
  | cons e t ih =>
    obtain ⟨k2, n⟩ := e
    by_cases h : k2 = k
    · simp [bumpCount, lookupCount, h]
    · simp [bumpCount, lookupCount, h, ih]

/-- Incrementing a stats mapping leaves every other key unchanged. -/
theorem lookupCount_bumpCount_other :
    ∀ (m : List (String × Nat)) (k k2 : String), k2 ≠ k →
      lookupCount (bumpCount m k) k2 = lookupCount m k2 := by
  intro m k k2 hne
  have hne2 : ¬ k = k2 := fun h => hne h.symm
  induction m with
  | nil => simp [bumpCount, lookupCount, hne2]
  | cons e t ih =>
    obtain ⟨k3, n⟩ := e
    by_cases h : k3 = k
    · subst h
      simp [bumpCount, lookupCount, hne2]
    · simp [bumpCount, lookupCount, h, ih]

/-- `update_stats` never touches the `total_processed` counter. -/
theorem foldl_update_stats_total :
    ∀ (us : List StatsUpdate) (s : Stats),
      (us.foldl update_stats s).total_processed = s.total_processed := by
  intro us
  induction us with
  | nil => intro s; rfl
  | cons u t ih => intro s; rw [List.foldl_cons, ih]; rfl

/-- The batch loop never touches the `total_processed` counter. -/
theorem batchLoop_total (w : World) :
    ∀ (files : List BatchItem) (s : Stats),
      (batchLoop w files s).2.total_processed = s.total_processed := by
  intro files
  induction files with
  | nil => intro s; rfl
  | cons it rest ih =>
    intro s
    simp only [batchLoop]
    rw [ih, foldl_update_stats_total]

/-- One PDF page-loop iteration whose direct text-layer call returns
normally produces exactly the page's blocks, method entries and table
count. -/
theorem pdfStep_ok (i : Nat) (p : PdfPage) (acc : PdfAcc) (t? : Option String)
    (ht : p.extractText = .ok t?) :
    pdfStep i p acc = .ok
      ⟨acc.texts ++ pdfPageBlocks p,
       acc.methods ++ pdfPageMethods i p,
       acc.tables + pdfPageTables p⟩ := by
  unfold pdfStep pdfPageBlocks pdfPageMethods pdfPageTables
  rw [ht]
  rcases htb : p.extractTables with msg | ts
  · by_cases hdk : directOk t? = true
    · simp [hdk]
    · simp only [Bool.not_eq_true] at hdk
      rcases hocr : p.ocr with m2 | o <;> simp [hdk]
  · by_cases hts : ts = []
    · subst hts
      by_cases hdk : directOk t? = true
      · simp [hdk]
      · simp only [Bool.not_eq_true] at hdk
        rcases hocr : p.ocr with m2 | o <;> simp [hdk]
    · by_cases hdk : directOk t? = true
      · simp [hdk, hts]
      · simp only [Bool.not_eq_true] at hdk
        rcases hocr : p.ocr with m2 | o <;> simp [hdk, hts]

/-- The PDF page loop, when no direct-extraction call raises, accumulates
the per-page blocks, method entries and table counts in page order. -/
theorem pdfLoop_ok :
    ∀ (ps : List PdfPage) (i : Nat) (acc : PdfAcc),
      (∀ p ∈ ps, p.extractText.isOk = true) →
      pdfLoop ps i acc = .ok
        ⟨acc.texts ++ pdfSpecTexts ps,
         acc.methods ++ pdfSpecMethods i ps,
         acc.tables + pdfSpecTables ps⟩ := by
  intro ps
  induction ps with
  | nil =>
    intro i acc h
    simp [pdfLoop, pdfSpecTexts, pdfSpecMethods, pdfSpecTables]
  | cons p t ih =>
    intro i acc h
    have hp : p.extractText.isOk = true := h p (List.mem_cons_self ..)
    obtain ⟨t?, ht⟩ : ∃ x, p.extractText = .ok x := by
      cases hx : p.extractText with
      | error m => rw [hx] at hp; simp [Except.isOk, Except.toBool] at hp
      | ok x => exact ⟨x, rfl⟩
    have hrest : ∀ q ∈ t, q.extractText.isOk = true :=
      fun q hq => h q (List.mem_cons_of_mem _ hq)
    simp only [pdfLoop]
    rw [pdfStep_ok i p acc t? ht]
    simp only []
    rw [ih (i + 1) _ hrest]
    simp [pdfSpecTexts, pdfSpecMethods, pdfSpecTables, List.append_assoc,
      Nat.add_assoc]

/-! ## Claim theorems -/

/-- C1 (counterexample): a fully successful `process_file` run returns
status `"SUCCESS"`, which is not in the claimed status set
{PROCESSING, UNSUPPORTED, EXTRACTION_FAILED, FAILED, PROCESSED} — the
claimed terminal-success name `PROCESSED` is used only on the persisted
record, never on the returned result. -/
theorem C1_counterexample_success_status :
    ¬ ((process_file wSuccess "a.txt" ⟨none, none⟩).result.status ∈
        ["PROCESSING", "UNSUPPORTED", "EXTRACTION_FAILED", "FAILED",
         "PROCESSED"]) := by
  decide

/-- C1 (amended): the status of every returned `ProcessingResult` is one of
UNSUPPORTED, EXTRACTION_FAILED, FAILED, SUCCESS, and the non-terminal
PROCESSING never escapes `process_file`. -/
theorem C1_amended_status_set (w : World) (fp : String) (m : CallerMeta) :
    (process_file w fp m).result.status ∈
      ["UNSUPPORTED", "EXTRACTION_FAILED", "FAILED", "SUCCESS"] ∧
    (process_file w fp m).result.status ≠ "PROCESSING" := by
  unfold process_file
  repeat' split
  all_goals exact ⟨by simp, by simp⟩

/-- C1 (witness): the amended status-set theorem at a concrete world. -/
theorem C1_amended_status_set_witness :
    (process_file wSuccess "a.txt" ⟨none, none⟩).result.status ∈
      ["UNSUPPORTED", "EXTRACTION_FAILED", "FAILED", "SUCCESS"] ∧
    (process_file wSuccess "a.txt" ⟨none, none⟩).result.status ≠ "PROCESSING" :=
  C1_amended_status_set wSuccess "a.txt" ⟨none, none⟩

/-- C2 (counterexample): a batch containing one document of unsupported
type produces a result (the document is processed) yet increments neither
the success nor the failure counter and none of the three category
mappings — refuting "exactly one increment to total/success-or-failure and
to each of the three category mappings per document processed". -/
theorem C2_counterexample_unsupported_no_increment :
    (process_batch wZip [⟨"a.zip", none⟩] emptyStats).1.length = 1 ∧
    (process_batch wZip [⟨"a.zip", none⟩] emptyStats).2 =
      { total_processed := 1, successful := 0, failed := 0,
        by_channel := [], by_type := [], by_department := [] } :=
  ⟨by decide, by decide⟩

/-- C2 (amended): `update_stats` runs exactly once for a document ending in
SUCCESS (success, keyed by channel/type/classified department) or FAILED
(failure, department "UNKNOWN"), and never for UNSUPPORTED or
EXTRACTION_FAILED outcomes; each `update_stats` call adds exactly one to
the success-or-failure total and to each of the three mappings at exactly
its key; the `total_processed` counter is incremented only by
`process_batch`, once per batch item regardless of outcome. -/
theorem C2_amended_stats_discipline :
    (∀ (w : World) (fp : String) (m : CallerMeta),
      ((process_file w fp m).result.status = "SUCCESS" →
        ((process_file w fp m).result.department).isSome = true ∧
        (process_file w fp m).stats =
          [⟨m.channel.getD "UNKNOWN", (w.detect fp).1,
            ((process_file w fp m).result.department).getD "UNKNOWN", true⟩]) ∧
      ((process_file w fp m).result.status = "FAILED" →
        (process_file w fp m).stats =
          [⟨m.channel.getD "UNKNOWN", (w.detect fp).1, "UNKNOWN", false⟩]) ∧
      ((process_file w fp m).result.status = "UNSUPPORTED" ∨
          (process_file w fp m).result.status = "EXTRACTION_FAILED" →
        (process_file w fp m).stats = [])) ∧
    (∀ (s : Stats) (u : StatsUpdate),
      (update_stats s u).total_processed = s.total_processed ∧
      (update_stats s u).successful + (update_stats s u).failed =
        s.successful + s.failed + 1 ∧
      lookupCount (update_stats s u).by_channel u.channel =
        lookupCount s.by_channel u.channel + 1 ∧
      lookupCount (update_stats s u).by_type u.file_type =
        lookupCount s.by_type u.file_type + 1 ∧
      lookupCount (update_stats s u).by_department u.department =
        lookupCount s.by_department u.department + 1 ∧
      (∀ k, k ≠ u.channel →
        lookupCount (update_stats s u).by_channel k =
          lookupCount s.by_channel k) ∧
      (∀ k, k ≠ u.file_type →
        lookupCount (update_stats s u).by_type k = lookupCount s.by_type k) ∧
      (∀ k, k ≠ u.department →
        lookupCount (update_stats s u).by_department k =
          lookupCount s.by_department k)) ∧
    (∀ (w : World) (files : List BatchItem) (s : Stats),
      (process_batch w files s).2.total_processed =
        s.total_processed + files.length) := by
  refine ⟨?_, ?_, ?_⟩
  · intro w fp m
    unfold process_file
    rcases hdet : w.detect fp with ⟨ft, mt⟩
    repeat' split
    all_goals refine ⟨fun h1 => ?_, fun h2 => ?_, fun h3 => ?_⟩
    all_goals simp_all
  · intro s u
    refine ⟨rfl, ?_,
      lookupCount_bumpCount_self s.by_channel u.channel,
      lookupCount_bumpCount_self s.by_type u.file_type,
      lookupCount_bumpCount_self s.by_department u.department,
      fun k hk => lookupCount_bumpCount_other s.by_channel u.channel k hk,
      fun k hk => lookupCount_bumpCount_other s.by_type u.file_type k hk,
      fun k hk => lookupCount_bumpCount_other s.by_department u.department k hk⟩
    by_cases hu : u.success = true <;> simp [update_stats, hu] <;> omega
  · intro w files s
    unfold process_batch
    simp only []
    rw [batchLoop_total]

/-- C2 (witness): a concrete successful run makes exactly one
`update_stats` call with the success flag and its channel/type/department
keys. -/
theorem C2_amended_stats_discipline_witness :
    (process_file wSuccess "a.txt" ⟨none, none⟩).result.status = "SUCCESS" ∧
    (process_file wSuccess "a.txt" ⟨none, none⟩).stats =
      [⟨"UNKNOWN", "TXT", "UNKNOWN", true⟩] := by
  have h := (C2_amended_stats_discipline.1 wSuccess "a.txt" ⟨none, none⟩).1
    (by decide)
  refine ⟨by decide, ?_⟩
  rw [h.2]
  decide

/-- C3: when the resolved type tag is outside the allow-list,
`process_file` returns UNSUPPORTED with a null document id and never calls
the persistence layer, the extractor or the classifier. -/
theorem C3_unsupported_rejection (w : World) (fp : String) (m : CallerMeta)
    (h : is_supported_type (w.detect fp).1 = false) :
    (process_file w fp m).result.status = "UNSUPPORTED" ∧
    (process_file w fp m).result.document_id = none ∧
    (process_file w fp m).dbCreateCalled = false ∧
    (process_file w fp m).extractCalled = false ∧
    (process_file w fp m).classifyCalled = false := by
  unfold process_file
  rcases hdet : w.detect fp with ⟨ft, mt⟩
  rw [hdet] at h
  simp only [Prod.fst] at h
  simp [h]

/-- C3 (witness): the rejection theorem at a world resolving to the
unsupported `ZIP` tag. -/
theorem C3_unsupported_rejection_witness :
    is_supported_type (wZip.detect "a.zip").1 = false ∧
    (process_file wZip "a.zip" ⟨none, none⟩).result.status = "UNSUPPORTED" ∧
    (process_file wZip "a.zip" ⟨none, none⟩).result.document_id = none ∧
    (process_file wZip "a.zip" ⟨none, none⟩).dbCreateCalled = false ∧
    (process_file wZip "a.zip" ⟨none, none⟩).extractCalled = false ∧
    (process_file wZip "a.zip" ⟨none, none⟩).classifyCalled = false := by
  have h := C3_unsupported_rejection wZip "a.zip" ⟨none, none⟩ (by decide)
  exact ⟨by decide, h.1, h.2.1, h.2.2.1, h.2.2.2.1, h.2.2.2.2⟩

/-- C4: whenever the scoring phases accumulate at least one (necessarily
positive) score, the classifier returns the accumulated score map, its
department is the first entry attaining the maximal score (arg-max with
first-seen tie-breaking), its confidence is exactly
`min(winning_score * min(len(text)/1000, 1) / 10, 1)`, and the confidence
lies in [0, 1].  (With empty text the source returns before any score can
accumulate, hence the non-empty-text hypothesis.) -/
theorem C4_argmax_confidence (rex : String → String → Nat) (text fn : String)
    (ft? : Option String) (hne : text ≠ "")
    (hpos : ∃ p ∈ scoresOf rex text fn ft?, 0 < p.2) :
    ∃ s l₁ l₂,
      (classify rex text fn ft?).scores = scoresOf rex text fn ft? ∧
      (classify rex text fn ft?).scores =
        l₁ ++ ((classify rex text fn ft?).department, s) :: l₂ ∧
      (∀ p ∈ l₁, p.2 < s) ∧
      (∀ p ∈ l₂, p.2 ≤ s) ∧
      (classify rex text fn ft?).confidence =
        min (s * min ((text.length : ℚ) / 1000) 1 / 10) 1 ∧
      0 ≤ (classify rex text fn ft?).confidence ∧
      (classify rex text fn ft?).confidence ≤ 1 := by
  obtain ⟨q, hq, hq2⟩ := hpos
  cases hsc : scoresOf rex text fn ft? with
  | nil =>
    rw [hsc] at hq
    simp at hq
  | cons e t =>
    have hclass : classify rex text fn ft? =
        { department := (pickMax e t).1,
          confidence :=
            min ((pickMax e t).2 * min ((text.length : ℚ) / 1000) 1 / 10) 1,
          scores := e :: t,
          reasoning := (scoresAndReasons rex text fn ft?).2 } := by
      unfold classify
      rw [if_neg hne]
      dsimp only
      have h1 : (scoresAndReasons rex text fn ft?).1 = e :: t := hsc
      rw [h1]
    obtain ⟨l₁, l₂, hsplit, h₁, h₂⟩ := pickMax_split t e
    have hqmem : q ∈ e :: t := by rw [hsc] at hq; exact hq
    have hspos : 0 < (pickMax e t).2 := by
      rw [hsplit] at hqmem
      rcases List.mem_append.mp hqmem with hl | hr
      · exact lt_trans hq2 (h₁ q hl)
      · rcases List.mem_cons.mp hr with hq0 | hl2
        · rw [← hq0]; exact hq2
        · exact lt_of_lt_of_le hq2 (h₂ q hl2)
    have hfac : (0 : ℚ) ≤ min ((text.length : ℚ) / 1000) 1 :=
      le_min (div_nonneg (Nat.cast_nonneg _) (by norm_num)) zero_le_one
    refine ⟨(pickMax e t).2, l₁, l₂, ?_, ?_, h₁, h₂, ?_, ?_, ?_⟩
    · rw [hclass]
    · rw [hclass]
      simp only
      rw [Prod.mk.eta]
      exact hsplit
    · rw [hclass]
    · rw [hclass]
      simp only
      exact le_min
        (div_nonneg (mul_nonneg (le_of_lt hspos) hfac) (by norm_num))
        zero_le_one
    · rw [hclass]
      simp only
      exact min_le_right _ _

/-- C4 (witness): classifying the text `"qq"` with a DWG file-type bonus
accumulates the single positive score entry `("ENGINEERING", 1)`. -/
theorem C4_argmax_confidence_witness :
    (("qq" : String) ≠ "" ∧
      (∃ p ∈ scoresOf rexZero "qq" "" (some "DWG"), 0 < p.2)) ∧
    (∃ s l₁ l₂,
      (classify rexZero "qq" "" (some "DWG")).scores =
        scoresOf rexZero "qq" "" (some "DWG") ∧
      (classify rexZero "qq" "" (some "DWG")).scores =
        l₁ ++ ((classify rexZero "qq" "" (some "DWG")).department, s) :: l₂ ∧
      (∀ p ∈ l₁, p.2 < s) ∧
      (∀ p ∈ l₂, p.2 ≤ s) ∧
      (classify rexZero "qq" "" (some "DWG")).confidence =
        min (s * min ((("qq" : String).length : ℚ) / 1000) 1 / 10) 1 ∧
      0 ≤ (classify rexZero "qq" "" (some "DWG")).confidence ∧
      (classify rexZero "qq" "" (some "DWG")).confidence ≤ 1) :=
  ⟨⟨by decide, by decide⟩,
   C4_argmax_confidence rexZero "qq" "" (some "DWG") (by decide) (by decide)⟩

/-- C5: for a CAD extraction call whose (lower-cased) path does not end in
`.dxf` — in particular every `.dwg` file — the extractor's `if` guard skips
the whole body, no exception is ever raised, and the returned outcome has
empty text, no `"CAD file detected"` placeholder and no failure reason in
its notes, contradicting the claimed placeholder-plus-failure-reason
behaviour (the source comment "For DWG files or if ezdxf fails" documents
the intended behaviour, but that branch is unreachable for DWG paths). -/
theorem C5_dwg_silent_empty (e : CadEngine) (fp : String)
    (h : pyEndsWith (lowerStr fp) ".dxf" = false) :
    cadExtract e fp =
      { text := "", entities := 0, text_entities := 0, layers := [],
        error := none } := by
  unfold cadExtract
  simp [h]

/-- C5 (witness): the DWG behaviour at the concrete path `"drawing.dwg"`,
whatever ezdxf would have answered. -/
theorem C5_dwg_silent_empty_witness :
    pyEndsWith (lowerStr "drawing.dwg") ".dxf" = false ∧
    cadExtract ⟨.error "ezdxf cannot open DWG"⟩ "drawing.dwg" =
      { text := "", entities := 0, text_entities := 0, layers := [],
        error := none } :=
  ⟨by decide,
   C5_dwg_silent_empty ⟨.error "ezdxf cannot open DWG"⟩ "drawing.dwg"
     (by decide)⟩

/-- C6: with empty text the classifier returns the no-content sentinel
`"UNKNOWN"` with confidence 0 and empty score map; with non-empty text and
no department accumulating a positive score (equivalently, by
`scoresOf_allPos`, no accumulated score at all) it returns the catch-all
`"GENERAL"` with confidence 0 and empty score map. -/
theorem C6_no_signal_verdicts :
    (∀ (rex : String → String → Nat) (fn : String) (ft? : Option String),
      classify rex "" fn ft? =
        { department := "UNKNOWN", confidence := 0, scores := [],
          reasoning := [Reason.noText] }) ∧
    (∀ (rex : String → String → Nat) (text fn : String) (ft? : Option String),
      text ≠ "" →
      (∀ p ∈ scoresOf rex text fn ft?, ¬ 0 < p.2) →
      classify rex text fn ft? =
        { department := "GENERAL", confidence := 0, scores := [],
          reasoning := [Reason.noSignal] }) := by
  constructor
  · intro rex fn ft?
    rfl
  · intro rex text fn ft? hne hnp
    have hempty : scoresOf rex text fn ft? = [] := by
      cases hsc : scoresOf rex text fn ft? with
      | nil => rfl
      | cons e t =>
        exfalso
        have hall := scoresOf_allPos rex text fn ft?
        rw [hsc] at hall
        rw [hsc] at hnp
        exact hnp e (List.mem_cons_self ..) (hall e (List.mem_cons_self ..))
    unfold classify
    rw [if_neg hne]
    dsimp only
    have h1 : (scoresAndReasons rex text fn ft?).1 = [] := hempty
    rw [h1]

/-- C6 (witness): both no-signal branches evaluated at concrete inputs. -/
theorem C6_no_signal_verdicts_witness :
    classify rexZero "" "po.txt" (some "TXT") =
      { department := "UNKNOWN", confidence := 0, scores := [],
        reasoning := [Reason.noText] } ∧
    ((("z" : String) ≠ "" ∧
        (∀ p ∈ scoresOf rexZero "z" "" none, ¬ 0 < p.2)) ∧
      classify rexZero "z" "" none =
        { department := "GENERAL", confidence := 0, scores := [],
          reasoning := [Reason.noSignal] }) :=
  ⟨C6_no_signal_verdicts.1 rexZero "po.txt" (some "TXT"),
   ⟨by decide, by decide⟩,
   C6_no_signal_verdicts.2 rexZero "z" "" none (by decide) (by decide)⟩

/-- C7 (counterexample): extracting from a supported-type (PDF) document
whose single page has no direct text layer and whose OCR fallback and
table extraction both raise returns normally with empty (degraded) text —
but records no failure reason anywhere in the extraction notes (`error`
is `none` and the method log is empty): the OCR failure is only printed
and the table failure swallowed by the bare `except`, refuting "any
internal failure ... degrades the outcome ... with a failure reason
recorded in the extraction notes". -/
theorem C7_counterexample_silent_page_failures :
    pageOcrFail.ocr = .error "tesseract failed" ∧
    pageOcrFail.extractTables = .error "tables failed" ∧
    runExtractor "PDF" enginesOcrFail "scan.pdf" =
      .ok (.pdf { text := "", pages := 1, extraction_method := [],
                  tables_found := 0, error := none }) :=
  ⟨rfl, rfl, rfl⟩

/-- C7 (amended): for every supported type tag, whatever every extraction
engine does, the factory finds an extractor and the extraction call
returns normally — every internal engine failure is caught and degrades
the outcome rather than escaping.  Extractor-level failures record their
reason in the notes: a failed PDF open or a raising direct text-layer
call, a failed image open or whole-image OCR, a failed office-document
load, a failed DXF read, and a total encoding failure each yield
`error = some reason`; but page-level OCR and table-extraction failures
inside the PDF page loop leave no note (`error = none` whenever the open
and every direct text-layer call return normally). -/
theorem C7_amended_never_raises :
    (∀ (tag : String) (w : EngWorld) (fp : String),
      tag ∈ supported_types → (runExtractor tag w fp).isOk = true) ∧
    (∀ (e : PdfEngine) (msg : String), e.openDoc = .error msg →
      pdfExtract e =
        { text := "", pages := 0, extraction_method := [],
          tables_found := 0, error := some msg }) ∧
    (∀ (e : PdfEngine) (p : PdfPage) (rest : List PdfPage) (msg : String),
      e.openDoc = .ok (p :: rest) → p.extractText = .error msg →
      (pdfExtract e).error = some msg ∧ (pdfExtract e).text = "") ∧
    (∀ (e : PdfEngine) (ps : List PdfPage),
      e.openDoc = .ok ps → (∀ p ∈ ps, p.extractText.isOk = true) →
      (pdfExtract e).error = none) ∧
    (∀ (e : ImgEngine) (msg : String), e.openImage = .error msg →
      imgExtract e = { text := "", image_size := none, error := some msg }) ∧
    (∀ (e : ImgEngine) (sz : Nat × Nat) (msg : String),
      e.openImage = .ok sz → e.ocr = .error msg →
      imgExtract e = { text := "", image_size := some sz, error := some msg }) ∧
    (∀ (e : DocxEngine) (msg : String), e.loadDoc = .error msg →
      docxExtract e =
        { text := "", paragraphs := 0, tables := 0, error := some msg }) ∧
    (∀ (e : CadEngine) (fp : String) (msg : String),
      pyEndsWith (lowerStr fp) ".dxf" = true → e.readFile = .error msg →
      cadExtract e fp =
        { text := strCat "CAD file detected: " (basename fp),
          entities := 0, text_entities := 0, layers := [],
          error := some msg }) ∧
    (∀ (f : String → CsvRead) (msg : String),
      csvFirstDecode f encodings = .error msg →
      csvExtract f =
        { text := "", rows := 0, columns := 0, encoding := "utf-8",
          error := some msg }) ∧
    (∀ (f : String → TxtRead) (msg : String),
      txtFirstDecode f encodings = .error msg →
      txtExtract f =
        { text := "", encoding := "utf-8", lines := 0, error := some msg }) := by
  refine ⟨?_, ?_, ?_, ?_, ?_, ?_, ?_, ?_, ?_, ?_⟩
  · intro tag w fp h
    fin_cases h <;> rfl
  · intro e msg h
    unfold pdfExtract
    rw [h]
  · intro e p rest msg h1 h2
    have hstep : pdfStep 0 p ⟨[], [], 0⟩ = .error (msg, ⟨[], [], 0⟩) := by
      unfold pdfStep
      rw [h2]
    unfold pdfExtract
    rw [h1]
    dsimp only
    rw [pdfLoop, hstep]
    exact ⟨rfl, rfl⟩
  · intro e ps h1 h2
    unfold pdfExtract
    rw [h1]
    dsimp only
    rw [pdfLoop_ok ps 0 ⟨[], [], 0⟩ h2]
  · intro e msg h
    unfold imgExtract
    rw [h]
  · intro e sz msg h1 h2
    unfold imgExtract
    rw [h1, h2]
  · intro e msg h
    unfold docxExtract
    rw [h]
  · intro e fp msg h1 h2
    unfold cadExtract
    rw [if_pos h1, h2]
  · intro f msg h
    unfold csvExtract
    rw [h]
  · intro f msg h
    unfold txtExtract
    rw [h]

/-- C7 (witness): the amended theorem at concrete inputs — the PDF tag with
all-failing engines returns normally; a failed PDF open records its
reason; a page whose direct text layer succeeds never yields a note even
when its OCR and table calls fail. -/
theorem C7_amended_never_raises_witness :
    ("PDF" ∈ supported_types ∧
      (runExtractor "PDF" failEngines "f").isOk = true) ∧
    pdfExtract ⟨.error "boom"⟩ =
      { text := "", pages := 0, extraction_method := [], tables_found := 0,
        error := some "boom" } ∧
    (pdfExtract engineOcrFail).error = none :=
  ⟨⟨by decide, C7_amended_never_raises.1 "PDF" failEngines "f" (by decide)⟩,
   C7_amended_never_raises.2.1 ⟨.error "boom"⟩ "boom" rfl,
   C7_amended_never_raises.2.2.2.1 engineOcrFail [pageOcrFail] rfl (by decide)⟩

/-- C8 (counterexample): a page whose direct text-layer result has exactly
30 characters (no whitespace, hence unchanged by stripping) is non-empty
and not below the 30-character threshold, yet the extractor discards it and
uses OCR — the source requires the stripped length to strictly exceed 30,
refuting "OCR is used exactly when the direct result is empty or below the
minimum-length threshold of 30 characters". -/
theorem C8_counterexample_boundary_30 :
    page30.extractText = .ok (some text30) ∧
    text30 ≠ "" ∧
    ¬ (text30.length < 30) ∧
    pyStrip text30 = text30 ∧
    (pdfExtract engine30).extraction_method = ["page_1_ocr"] ∧
    (pdfExtract engine30).text = "OCRTEXT" :=
  ⟨rfl, by decide, by decide, by decide, by decide, by decide⟩

/-- C8 (amended): per page, the direct text-layer result is kept iff it is
present, non-empty and its stripped length strictly exceeds 30 characters;
otherwise OCR is attempted (recorded only when it succeeds); the per-page
sub-strategy entries (`page_i_direct` / `page_i_ocr`) and the page texts
and table blocks are aggregated in page order, joined by blank lines. -/
theorem C8_amended_page_strategy (e : PdfEngine) (ps : List PdfPage)
    (hopen : e.openDoc = .ok ps)
    (hok : ∀ p ∈ ps, p.extractText.isOk = true) :
    pdfExtract e =
      { text := joinSep "\n\n" (pdfSpecTexts ps),
        pages := ps.length,
        extraction_method := pdfSpecMethods 0 ps,
        tables_found := pdfSpecTables ps,
        error := none } := by
  unfold pdfExtract
  rw [hopen]
  dsimp only
  rw [pdfLoop_ok ps 0 ⟨[], [], 0⟩ hok]
  simp

/-- C8 (witness): a one-page document with a 40-character direct text layer
and one table: the direct strategy is recorded and the text and table block
are joined by a blank line. -/
theorem C8_amended_page_strategy_witness :
    engine40.openDoc = .ok [page40] ∧
    (∀ p ∈ [page40], p.extractText.isOk = true) ∧
    pdfExtract engine40 =
      { text := strCat text40 "\n\nTABLE:\na | b",
        pages := 1,
        extraction_method := ["page_1_direct"],
        tables_found := 1,
        error := none } :=
  ⟨rfl, by decide,
   (C8_amended_page_strategy engine40 [page40] rfl (by decide)).trans
     (by decide)⟩

/-- C9: `process_batch` returns one result per input item, in input order —
the i-th result is exactly `process_file` of the i-th item, so no failure
short-circuits the rest of the batch. -/
theorem C9_batch_order_length (w : World) (files : List BatchItem) (s : Stats) :
    (process_batch w files s).1.length = files.length ∧
    ∀ i : Nat, (process_batch w files s).1[i]? =
      (files[i]?).map (fun it =>
        (process_file w it.filepath (it.meta_data.getD ⟨none, none⟩)).result) := by
  have h1 : (process_batch w files s).1 = files.map (fun it =>
      (process_file w it.filepath (it.meta_data.getD ⟨none, none⟩)).result) := by
    unfold process_batch
    simp only []
    rw [batchLoop_results]
  constructor
  · rw [h1, List.length_map]
  · intro i
    rw [h1, List.getElem?_map]

/-- C10: the returned result's `error` field is null exactly on the
terminal-success status `"SUCCESS"`; every other terminal result carries an
error message. -/
theorem C10_error_null_iff_success (w : World) (fp : String) (m : CallerMeta) :
    (process_file w fp m).result.error = none ↔
      (process_file w fp m).result.status = "SUCCESS" := by
  unfold process_file
  repeat' split
  all_goals simp

end KMRL
